import Mathlib

/-!
Verification of `src/session_pull.py` (aircasting client).

Shallow embedding conventions:
* Network endpoints are modelled as oracle functions passed in explicitly; a
  request is one oracle call, and each embedded procedure also returns the
  list of requests it issued (its call trace), mirroring the sequence of
  `requests.get` calls in the source.
* Python exceptions raised by `raise_for_status` / JSON decoding are modelled
  with `Except`: an oracle returning `.error e` corresponds to a request that
  raises, and the embedded control flow propagates it exactly as Python
  exception propagation does.
* A UTC instant is represented by its epoch value in milliseconds (`Int`),
  which is how `pandas` represents `Timestamp`s internally (the sub-ms
  resolution and the Timestamp range bounds of pandas are not modelled).
* JSON identifier payloads are modelled as `Int`; a Python value that may be
  `None` is an `Option`, and dictionary key presence is a further `Option`.
-/

/-! ## Tier-2 fallback cascade (`pick_fixed_session_mapstyle`, lines 112-152) -/

/-- Element of the `sessions` list returned by a mapstyle endpoint: either a
JSON object—of which only the `"id"` and `"session_id"` keys are inspected by
the source, each possibly absent (outer `Option`) or null (inner `Option`)—or
a bare (non-dict) value. -/
inductive SessElem : Type where
  | obj (idv : Option (Option Int)) (sidv : Option (Option Int))
  | bare (v : Option Int)
deriving DecidableEq, Repr

/-- Embedding of the id-normalization expression at lines 143-147 of the
source: `s0["id"] if isinstance(s0, dict) and "id" in s0 else
(s0.get("session_id") if isinstance(s0, dict) else s0)`. -/
def extract_sid : SessElem → Option Int
  | .obj (some v) _ => v
  | .obj none (some v) => v
  | .obj none none => none
  | .bare v => v

/-- The dict returned by `pick_fixed_session_mapstyle` on success
(lines 148-151): `{"id": sid, "picked_via": f"mapstyle:{kind}:{days}d:{sensor}"}`. -/
structure SessionRef : Type where
  id : Option Int
  picked_via : String
deriving DecidableEq, Repr

def sensor_names : List String := ["AirBeam3-PM2.5", "AirBeam2-PM2.5", "AirBeam-PM2.5"]

def day_windows : List Nat := [7, 30, 90]

def kinds : List String := ["active", "dormant"]

/-- One cascade combination: (kind, days, sensor). -/
abbrev Combo : Type := String × Nat × String

/-- The triple-nested loop order of lines 119-121: kind outermost, then days,
then sensor innermost. -/
def cascadeCombos : List Combo :=
  kinds.flatMap fun kind => day_windows.flatMap fun days => sensor_names.map fun sensor =>
    (kind, days, sensor)

/-- The session dict built on a cascade hit (lines 141-151). -/
def mk_session_ref (kind : String) (days : Nat) (sensor : String) (s0 : SessElem) :
    SessionRef :=
  { id := extract_sid s0
    picked_via := "mapstyle:" ++ kind ++ ":" ++ toString days ++ "d:" ++ sensor }

/-- Loop body of `pick_fixed_session_mapstyle` over a list of remaining
combinations.  The oracle maps one combination to the `sessions` list of the
response of `GET {BASE}/api/fixed/{kind}/sessions.json?q=...` scoped to that
kind/window/sensor (the bounding box, tags etc. of the query are fixed across
the whole cascade and are absorbed into the oracle); `.error` is a request
that raises (`raise_for_status` or JSON decoding).  Besides the Python return
value the embedding returns the trace of combinations actually requested. -/
def cascade_run {ε : Type} (oracle : String → Nat → String → Except ε (List SessElem)) :
    List Combo → Except ε (Option SessionRef) × List Combo
  | [] => (.ok none, [])
  | (kind, days, sensor) :: rest =>
    match oracle kind days sensor with
    | .error e => (.error e, [(kind, days, sensor)])
    | .ok [] =>
      let r := cascade_run oracle rest
      (r.1, (kind, days, sensor) :: r.2)
    | .ok (s0 :: _) =>
      (.ok (some (mk_session_ref kind days sensor s0)), [(kind, days, sensor)])

/-- Embedding of `pick_fixed_session_mapstyle` (lines 112-152): run the
cascade over the full Cartesian product in priority order. -/
def pick_fixed_session_mapstyle {ε : Type}
    (oracle : String → Nat → String → Except ε (List SessElem)) :
    Except ε (Option SessionRef) × List Combo :=
  cascade_run oracle cascadeCombos

/-- Infallible oracle, for claims about runs in which every request succeeds. -/
def okOracle (o : String → Nat → String → List SessElem) :
    String → Nat → String → Except Unit (List SessElem) :=
  fun kind days sensor => .ok (o kind days sensor)

/-! ## Timestamp parsing (`to_datetime_any`, lines 204-212) -/

/-- A raw timestamp value as it reaches `to_datetime_any`: `null` covers
Python `None` and float NaN (the `pd.isna` branch), `num` an int (float
inputs are truncated by `int(x)` before the branch and are modelled only at
integral values), `str` a string. -/
inductive RawTime : Type where
  | null
  | num (n : Int)
  | str (s : String)
deriving DecidableEq, Repr

/-- Embedding of `to_datetime_any` (lines 204-212), returning the parsed UTC
instant in epoch milliseconds, or `none` for `NaT`.  The numeric branch is
`pd.to_datetime(x, unit="ms" if x > 10_000_000_000 else "s", utc=True)`:
seconds are scaled to ms.  String parsing
(`pd.to_datetime(x, utc=True, errors="coerce")`) is an external library
routine, abstracted as the `parseIso` oracle (total, `none` on failure, which
is what `errors="coerce"` guarantees). -/
def to_datetime_any (parseIso : String → Option Int) : RawTime → Option Int
  | .null => none
  | .num x => some (if x > 10000000000 then x else x * 1000)
  | .str s => parseIso s

/-! ## Tier-1 discovery (`pick_fixed_session_v3`, lines 89-109) -/

/-- A session object from `/api/v3/sessions`: only the `"type"` key is
inspected by the picker (possibly absent), the rest of the dict is carried
opaquely as `payload`. -/
structure Sess : Type where
  type_ : Option String
  payload : Int
deriving DecidableEq, Repr

/-- Predicate of line 92/106: `s.get("type") == "FixedSession"`. -/
def isFixedSession (s : Sess) : Bool := s.type_ == some "FixedSession"

/-- Embedding of `pick_fixed_session_v3` (lines 89-109).  `first` is the
session list of the default-window request (line 91), `widened` the list of
the request with the explicit one-year `start`/`end` range (lines 99-105),
which the source only issues when `first` is empty: the returned `Bool`
records whether that second request was issued. -/
def pick_fixed_session_v3 (first widened : List Sess) : Option Sess × Bool :=
  match first.find? isFixedSession with
  | some fixed => (some fixed, false)
  | none =>
    match first with
    | s :: _ => (some s, false)
    | [] => ((widened.find? isFixedSession) <|> widened.head?, true)

/-! ## Bounding box (`calculate_bounding_box`, lines 49-67) -/

/-- Embedding of `calculate_bounding_box` over the reals (the source computes
with IEEE doubles; the spherical-earth formulas themselves are exact here):
`math.radians(x) = x·π/180`, `math.degrees(x) = x·180/π`, Earth radius 6371 km.
Returns `(west, east, south, north)`. -/
noncomputable def calculate_bounding_box (lat lon radius_km : ℝ) : ℝ × ℝ × ℝ × ℝ :=
  let R : ℝ := 6371
  let lat_rad := lat * (Real.pi / 180)
  let lon_rad := lon * (Real.pi / 180)
  let delta_lat := radius_km / R
  let delta_lon := radius_km / (R * Real.cos lat_rad)
  let north := (lat_rad + delta_lat) * (180 / Real.pi)
  let south := (lat_rad - delta_lat) * (180 / Real.pi)
  let east := (lon_rad + delta_lon) * (180 / Real.pi)
  let west := (lon_rad - delta_lon) * (180 / Real.pi)
  (west, east, south, north)

/-! ## Stream probing (`find_stream_with_data`, lines 170-185, and the
`main` composition, lines 285-296) -/

/-- A stream descriptor from the streams endpoint: the resolver reads
`s.get("stream_id")` and `s.get("sensor_name")`, both possibly absent;
remaining metadata is carried opaquely. -/
structure StreamD : Type where
  stream_id : Option Int
  sensor_name : Option String
  meta : Int
deriving DecidableEq, Repr

/-- `LOOKBACKS_H = [24, 7*24, 30*24, 90*24, 180*24, 365*24]` (line 293). -/
def LOOKBACKS_H : List Nat := [24, 7 * 24, 30 * 24, 90 * 24, 180 * 24, 365 * 24]

/-- Inner loop of `find_stream_with_data` (lines 177-184) for one stream:
probe the lookback windows in order, stopping at the first non-empty
measurement list.  `fetch sid h` is the JSON body of
`get_fixed_measurements(sid, h)` (one request); the embedding also returns
the list of windows actually probed. -/
def probe_stream {μ : Type} (fetch : Option Int → Nat → List μ) (sid : Option Int) :
    List Nat → Option (List μ) × List Nat
  | [] => (none, [])
  | h :: hs =>
    let ms := fetch sid h
    match ms with
    | [] =>
      let r := probe_stream fetch sid hs
      (r.1, h :: r.2)
    | _ :: _ => (some ms, [h])

/-- Embedding of `find_stream_with_data` (lines 170-185): outer loop over the
streams, returning `(stream_id, stream, measurements)` of the first hit, or
`(none, none, [])` when every stream is empty at every window.  The second
component is the trace of `(stream_id, window)` requests issued. -/
def find_stream_with_data {μ : Type} (fetch : Option Int → Nat → List μ) :
    List StreamD → List Nat →
    (Option Int × Option StreamD × List μ) × List (Option Int × Nat)
  | [], _ => ((none, none, []), [])
  | s :: ss, hs =>
    match probe_stream fetch s.stream_id hs with
    | (some ms, probed) =>
      ((s.stream_id, some s, ms), probed.map fun h => (s.stream_id, h))
    | (none, probed) =>
      let r := find_stream_with_data fetch ss hs
      (r.1, (probed.map fun h => (s.stream_id, h)) ++ r.2)

/-- Leading-segment test on code-point lists (Python string comparison works
on code points, which `String.data` exposes). -/
def charStarts : List Char → List Char → Bool
  | [], _ => true
  | _ :: _, [] => false
  | a :: as, b :: bs => a == b && charStarts as bs

/-- Substring test on code-point lists. -/
def charSub : List Char → List Char → Bool
  | needle, [] => charStarts needle []
  | needle, c :: t => charStarts needle (c :: t) || charSub needle t

/-- Lexicographic string comparison on code points, Python's `<=` on `str`. -/
def charListLE : List Char → List Char → Bool
  | [], _ => true
  | _ :: _, [] => false
  | a :: as, b :: bs => if a < b then true else if b < a then false else charListLE as bs

/-- Python's `"PM2.5" in name` substring test. -/
def strContains (hay needle : String) : Bool := charSub needle.data hay.data

/-- Sort key of lines 285-291: `(0 if "PM2.5" in (s.get("sensor_name") or "")
else 1, s.get("sensor_name", ""))`. -/
def stream_key (s : StreamD) : Nat × String :=
  (if strContains (s.sensor_name.getD "") "PM2.5" then 0 else 1, s.sensor_name.getD "")

/-- Boolean key comparison for the stream sort (lexicographic on
`stream_key`, as Python tuple comparison). -/
def streamBLE (a b : StreamD) : Bool :=
  if (stream_key a).1 < (stream_key b).1 then true
  else if (stream_key b).1 < (stream_key a).1 then false
  else charListLE (stream_key a).2.data (stream_key b).2.data

/-- Key comparison as a relation, for `List.insertionSort`. -/
def streamLE (a b : StreamD) : Prop := streamBLE a b = true

instance : DecidableRel streamLE := fun a b =>
  inferInstanceAs (Decidable (streamBLE a b = true))

/-- Embedding of `streams_sorted = sorted(streams, key=...)` (lines 285-291);
Python's `sorted` is a stable sort, modelled by insertion sort. -/
def streams_sorted (streams : List StreamD) : List StreamD :=
  List.insertionSort streamLE streams

/-- Composition used by `main` (lines 285-296): sort the streams, then probe
with the fixed escalating windows. -/
def resolve_stream {μ : Type} (fetch : Option Int → Nat → List μ) (streams : List StreamD) :
    (Option Int × Option StreamD × List μ) × List (Option Int × Nat) :=
  find_stream_with_data fetch (streams_sorted streams) LOOKBACKS_H

/-! ## Normalization (`coerce_df`, lines 215-240, and
`df.dropna(subset=["time"]).sort_values("time")`, lines 308-309) -/

/-- A raw measurement record as a dict: for each of the five time-key aliases
and five value-key aliases of `coerce_df`, an outer `Option` records key
presence; a present time key holds a `RawTime` (which may itself be null), a
present value key holds an `Option Int` (null or a value).  All further dict
entries are opaque passthrough, carried in `rest`. -/
structure RawMeas : Type where
  time_k : Option RawTime
  measured_at : Option RawTime
  timestamp_k : Option RawTime
  recorded_at : Option RawTime
  created_at : Option RawTime
  value_k : Option (Option Int)
  value_calibrated : Option (Option Int)
  value_ugm3 : Option (Option Int)
  value_rounded : Option (Option Int)
  measurement_value : Option (Option Int)
  rest : Nat
deriving DecidableEq, Repr

/-- Line 231: `t = next((m[k] for k in time_keys if k in m), None)` — first
present time key, in the fixed alias order; Python `None` (no key present)
reaches `to_datetime_any` in the same `pd.isna` branch as a null value, so it
is collapsed to `RawTime.null`. -/
def resolve_time (m : RawMeas) : RawTime :=
  (m.time_k <|> m.measured_at <|> m.timestamp_k <|> m.recorded_at <|> m.created_at).getD .null

/-- Line 232: `v = next((m[k] for k in value_keys if k in m), None)` — first
present value key, in the fixed alias order (a present-but-null key stops the
scan and yields `None`, exactly as in Python). -/
def resolve_value (m : RawMeas) : Option Int :=
  (m.value_k <|> m.value_calibrated <|> m.value_ugm3 <|> m.value_rounded <|>
    m.measurement_value).getD none

/-- One row of the DataFrame built by `coerce_df`: the computed `time` column
(after the `apply(to_datetime_any)` of line 239, `none` = `NaT`), the
computed `value` column, and all original fields (`row.update(m)`, line 234)
carried as `orig`. -/
structure Row : Type where
  time : Option Int
  value : Option Int
  orig : RawMeas
deriving DecidableEq, Repr

/-- The row built for one measurement by lines 229-239. -/
def rowOf (parseIso : String → Option Int) (m : RawMeas) : Row :=
  { time := to_datetime_any parseIso (resolve_time m)
    value := resolve_value m
    orig := m }

/-- Embedding of `coerce_df` (lines 215-240) as a list of rows (one per input
record, in input order), with the `time` column already parsed. -/
def coerce_df (parseIso : String → Option Int) (measurements : List RawMeas) : List Row :=
  measurements.map (rowOf parseIso)

/-- Sort key of `sort_values("time")`: the parsed time.  It is only applied
after `dropna(subset=["time"])`, so every row has `time = some _`; the
default for `none` is irrelevant. -/
def timeKey (r : Row) : Int := r.time.getD 0

/-- Row comparison by time, the order `sort_values("time")` sorts by. -/
def rowLE (a b : Row) : Prop := timeKey a ≤ timeKey b

instance : DecidableRel rowLE := fun a b => by
  unfold rowLE; infer_instance

instance : IsTotal Row rowLE := ⟨fun a b => Int.le_total (timeKey a) (timeKey b)⟩

instance : IsTrans Row rowLE := ⟨fun _ _ _ h h' => Int.le_trans h h'⟩

/-- Contract of `df.sort_values("time")` (line 309): the output is a
permutation of the input rows, ascending in the time key.  The source leaves
`kind` at its default `'quicksort'`, which pandas documents as NOT stable
(only `mergesort`/`stable` are), so the contract pins down nothing more:
any function satisfying `SortOk` is an admissible behaviour of line 309. -/
def SortOk (sorter : List Row → List Row) : Prop :=
  ∀ l : List Row, List.Perm (sorter l) l ∧ List.Sorted rowLE (sorter l)

/-- One admissible sorter (also the stable one). -/
def plain_sort (l : List Row) : List Row := List.insertionSort rowLE l

/-- Embedding of line 308-309:
`coerce_df(measurements).dropna(subset=["time"]).sort_values("time")`,
parametric in the admissible sorter. -/
def normalize_pipeline (parseIso : String → Option Int) (sorter : List Row → List Row)
    (measurements : List RawMeas) : List Row :=
  sorter ((coerce_df parseIso measurements).filter fun r => r.time.isSome)

/-! ## Concrete fixtures used by the example runs below -/

deriving instance DecidableEq for Except

/-- Oracle with sessions only at the fifth combination
(active, 30 days, AirBeam2-PM2.5). -/
def oracleC1 (kind : String) (days : Nat) (sensor : String) : List SessElem :=
  if kind = "active" ∧ days = 30 ∧ sensor = "AirBeam2-PM2.5" then
    [.obj (some (some 42)) none, .bare (some 5)]
  else []

/-- Oracle with sessions only at the combination
(dormant, 90 days, AirBeam2-PM2.5), the 17th in priority order. -/
def oracleC2 (kind : String) (days : Nat) (sensor : String) : List SessElem :=
  if kind = "dormant" ∧ days = 90 ∧ sensor = "AirBeam2-PM2.5" then
    [.obj (some (some 7)) none]
  else []

/-- Oracle whose second request of the cascade raises. -/
def oracleC9 (kind : String) (days : Nat) (sensor : String) :
    Except String (List SessElem) :=
  if kind = "active" ∧ days = 7 ∧ sensor = "AirBeam2-PM2.5" then .error "HTTP 500"
  else .ok []

/-- Oracle whose very first combination returns a dict without `"id"` but
with `"session_id": 3`. -/
def oracleC10 (kind : String) (days : Nat) (sensor : String) : List SessElem :=
  if kind = "active" ∧ days = 7 ∧ sensor = "AirBeam3-PM2.5" then
    [.obj none (some (some 3))]
  else []

/-- Two PM2.5-named streams, listed out of preference order so that the sort
is exercised; stream 1 is empty at every window, stream 2 has data only at
the 180-day (4320 h) window. -/
def streamsC4 : List StreamD :=
  [{ stream_id := some 2, sensor_name := some "AirBeam3-PM2.5", meta := 0 },
   { stream_id := some 1, sensor_name := some "AirBeam2-PM2.5", meta := 0 }]

/-- Measurement oracle matching `streamsC4`. -/
def fetchC4 (sid : Option Int) (h : Nat) : List Nat :=
  if sid = some 2 ∧ h = 4320 then [99] else []

/-- Record constructor used by concrete normalization examples: a dict with a
`"time"` key, a `"value"` key, and a distinguishing passthrough payload. -/
def mkMeas (t : Option RawTime) (n : Nat) : RawMeas :=
  { time_k := t, measured_at := none, timestamp_k := none, recorded_at := none,
    created_at := none, value_k := some (some 10), value_calibrated := none,
    value_ugm3 := none, value_rounded := none, measurement_value := none, rest := n }

def measA : RawMeas := mkMeas (some (.num 100)) 1

def measB : RawMeas := mkMeas (some (.num 100)) 2

def measC : RawMeas := mkMeas (some (.num 100)) 3

def measBad : RawMeas := mkMeas (some (.str "not-a-date")) 4

def measE : RawMeas := mkMeas (some (.num 100)) 5

def measF : RawMeas := mkMeas (some (.num 200)) 6

/-- A sorter satisfying the `sort_values` contract that reverses ties of a
two-element list (an admissible quicksort outcome). -/
def tie_swap : List Row → List Row
  | [a, b] => if timeKey b ≤ timeKey a then [b, a] else [a, b]
  | l => plain_sort l

/-! ## Helper lemmas about the cascade loop -/

theorem cascade_run_all_ok_empty {ε : Type}
    (oracle : String → Nat → String → Except ε (List SessElem)) :
    ∀ combos : List Combo, (∀ c ∈ combos, oracle c.1 c.2.1 c.2.2 = .ok []) →
    cascade_run oracle combos = (.ok none, combos) := by
  intro combos
  induction combos with
  | nil => intro _; rfl
  | cons c rest ih =>
    intro h
    obtain ⟨k, d, s⟩ := c
    have hk : oracle k d s = .ok [] := h (k, d, s) (by simp)
    have ih' := ih fun c' hc' => h c' (by simp [hc'])
    simp [cascade_run, hk, ih']

theorem cascade_run_first_hit {ε : Type}
    (oracle : String → Nat → String → Except ε (List SessElem)) :
    ∀ (pre : List Combo) (c : Combo) (post : List Combo)
      (_ : ∀ c' ∈ pre, oracle c'.1 c'.2.1 c'.2.2 = .ok [])
      (s0 : SessElem) (ss : List SessElem)
      (_ : oracle c.1 c.2.1 c.2.2 = .ok (s0 :: ss)),
    cascade_run oracle (pre ++ c :: post) =
      (.ok (some (mk_session_ref c.1 c.2.1 c.2.2 s0)), pre ++ [c]) := by
  intro pre
  induction pre with
  | nil =>
    intro c post _ s0 ss hc
    obtain ⟨k, d, s⟩ := c
    simp only [List.nil_append]
    simp [cascade_run, hc]
  | cons c' pre' ih =>
    intro c post hpre s0 ss hc
    obtain ⟨k', d', s'⟩ := c'
    have hk : oracle k' d' s' = .ok [] := hpre (k', d', s') (by simp)
    have ih' := ih c post (fun x hx => hpre x (by simp [hx])) s0 ss hc
    simp [cascade_run, hk, ih']

theorem cascade_run_error {ε : Type}
    (oracle : String → Nat → String → Except ε (List SessElem)) :
    ∀ (pre : List Combo) (c : Combo) (post : List Combo)
      (_ : ∀ c' ∈ pre, oracle c'.1 c'.2.1 c'.2.2 = .ok [])
      (e : ε) (_ : oracle c.1 c.2.1 c.2.2 = .error e),
    cascade_run oracle (pre ++ c :: post) = (.error e, pre ++ [c]) := by
  intro pre
  induction pre with
  | nil =>
    intro c post _ e hc
    obtain ⟨k, d, s⟩ := c
    simp only [List.nil_append]
    simp [cascade_run, hc]
  | cons c' pre' ih =>
    intro c post hpre e hc
    obtain ⟨k', d', s'⟩ := c'
    have hk : oracle k' d' s' = .ok [] := hpre (k', d', s') (by simp)
    have ih' := ih c post (fun x hx => hpre x (by simp [hx])) e hc
    simp [cascade_run, hk, ih']

/-! ## Claim C1 -/

/-- Claim C1: tier-2 discovery iterates the Cartesian product in the fixed
priority order (kind active then dormant, outermost; window 7 then 30 then 90
days; sensor AirBeam3 then AirBeam2 then AirBeam-PM2.5, innermost), issuing
one request per combination; it stops at the first combination whose session
list is non-empty, returning a ref built from that combination's first
session after exactly `position-of-the-combination` requests, and returns
none only after all 18 combinations are exhausted. -/
theorem C1_cascade_priority_order :
    cascadeCombos =
      [("active", 7, "AirBeam3-PM2.5"), ("active", 7, "AirBeam2-PM2.5"),
       ("active", 7, "AirBeam-PM2.5"), ("active", 30, "AirBeam3-PM2.5"),
       ("active", 30, "AirBeam2-PM2.5"), ("active", 30, "AirBeam-PM2.5"),
       ("active", 90, "AirBeam3-PM2.5"), ("active", 90, "AirBeam2-PM2.5"),
       ("active", 90, "AirBeam-PM2.5"), ("dormant", 7, "AirBeam3-PM2.5"),
       ("dormant", 7, "AirBeam2-PM2.5"), ("dormant", 7, "AirBeam-PM2.5"),
       ("dormant", 30, "AirBeam3-PM2.5"), ("dormant", 30, "AirBeam2-PM2.5"),
       ("dormant", 30, "AirBeam-PM2.5"), ("dormant", 90, "AirBeam3-PM2.5"),
       ("dormant", 90, "AirBeam2-PM2.5"), ("dormant", 90, "AirBeam-PM2.5")] ∧
    cascadeCombos.length = 18 ∧
    ∀ o : String → Nat → String → List SessElem,
      ((∀ c ∈ cascadeCombos, o c.1 c.2.1 c.2.2 = []) →
        pick_fixed_session_mapstyle (okOracle o) = (.ok none, cascadeCombos)) ∧
      ∀ pre c post, cascadeCombos = pre ++ c :: post →
        (∀ c' ∈ pre, o c'.1 c'.2.1 c'.2.2 = []) →
        ∀ s0 ss, o c.1 c.2.1 c.2.2 = s0 :: ss →
          pick_fixed_session_mapstyle (okOracle o) =
            (.ok (some (mk_session_ref c.1 c.2.1 c.2.2 s0)), pre ++ [c]) ∧
          (pre ++ [c]).length = pre.length + 1 := by
  refine ⟨by decide, by decide, fun o => ⟨fun hall => ?_, fun pre c post hsplit hpre s0 ss hc => ?_⟩⟩
  · exact cascade_run_all_ok_empty (okOracle o) cascadeCombos
      fun c hc => by simp [okOracle, hall c hc]
  · refine ⟨?_, by simp⟩
    have := cascade_run_first_hit (okOracle o) pre c post
      (fun c' hc' => by simp [okOracle, hpre c' hc']) s0 ss (by simp [okOracle, hc])
    rw [pick_fixed_session_mapstyle, hsplit, this]

theorem C1_cascade_priority_order_witness :
    pick_fixed_session_mapstyle (okOracle oracleC1) =
      (.ok (some { id := some 42, picked_via := "mapstyle:active:30d:AirBeam2-PM2.5" }),
        [("active", 7, "AirBeam3-PM2.5"), ("active", 7, "AirBeam2-PM2.5"),
         ("active", 7, "AirBeam-PM2.5"), ("active", 30, "AirBeam3-PM2.5"),
         ("active", 30, "AirBeam2-PM2.5")]) := by
  have h := ((C1_cascade_priority_order.2.2 oracleC1).2
    [("active", 7, "AirBeam3-PM2.5"), ("active", 7, "AirBeam2-PM2.5"),
     ("active", 7, "AirBeam-PM2.5"), ("active", 30, "AirBeam3-PM2.5")]
    ("active", 30, "AirBeam2-PM2.5")
    [("active", 30, "AirBeam-PM2.5"),
     ("active", 90, "AirBeam3-PM2.5"), ("active", 90, "AirBeam2-PM2.5"),
     ("active", 90, "AirBeam-PM2.5"), ("dormant", 7, "AirBeam3-PM2.5"),
     ("dormant", 7, "AirBeam2-PM2.5"), ("dormant", 7, "AirBeam-PM2.5"),
     ("dormant", 30, "AirBeam3-PM2.5"), ("dormant", 30, "AirBeam2-PM2.5"),
     ("dormant", 30, "AirBeam-PM2.5"), ("dormant", 90, "AirBeam3-PM2.5"),
     ("dormant", 90, "AirBeam2-PM2.5"), ("dormant", 90, "AirBeam-PM2.5")]
    (by decide) (by decide) (.obj (some (some 42)) none) [.bare (some 5)] (by decide)).1
  exact h.trans rfl

/-! ## Claim C2 -/

/-- Claim C2, counterexample: a session found only at kind=dormant,
window=90d, sensor=AirBeam2-PM2.5 is tagged
`mapstyle:dormant:90d:AirBeam2-PM2.5` by line 150 of the source, not
`fallback:dormant:90d:AirBeam2-PM2.5` as the claim states. -/
theorem C2_counterexample :
    (pick_fixed_session_mapstyle (okOracle oracleC2)).1 =
      .ok (some { id := some 7, picked_via := "mapstyle:dormant:90d:AirBeam2-PM2.5" }) ∧
    "mapstyle:dormant:90d:AirBeam2-PM2.5" ≠ "fallback:dormant:90d:AirBeam2-PM2.5" :=
  ⟨rfl, by decide⟩

/-- Claim C2 (amended): when the cascade succeeds at a combination, the
returned ref carries the tag `mapstyle:<kind>:<days>d:<sensor>` naming
exactly that combination. -/
theorem C2_tag_names_combination :
    ∀ (o : String → Nat → String → List SessElem)
      (pre : List Combo) (kind : String) (days : Nat) (sensor : String)
      (post : List Combo) (s0 : SessElem) (ss : List SessElem),
      cascadeCombos = pre ++ (kind, days, sensor) :: post →
      (∀ c' ∈ pre, o c'.1 c'.2.1 c'.2.2 = []) →
      o kind days sensor = s0 :: ss →
      (pick_fixed_session_mapstyle (okOracle o)).1 =
        .ok (some { id := extract_sid s0
                    picked_via := "mapstyle:" ++ kind ++ ":" ++ toString days ++ "d:" ++ sensor }) := by
  intro o pre kind days sensor post s0 ss hsplit hpre hc
  have h := cascade_run_first_hit (okOracle o) pre (kind, days, sensor) post
    (fun c' hc' => by simp [okOracle, hpre c' hc']) s0 ss (by simp [okOracle, hc])
  rw [pick_fixed_session_mapstyle, hsplit, h]
  rfl

theorem C2_tag_names_combination_witness :
    (pick_fixed_session_mapstyle (okOracle oracleC2)).1 =
      .ok (some { id := some 7, picked_via := "mapstyle:dormant:90d:AirBeam2-PM2.5" }) :=
  C2_tag_names_combination oracleC2
    [("active", 7, "AirBeam3-PM2.5"), ("active", 7, "AirBeam2-PM2.5"),
     ("active", 7, "AirBeam-PM2.5"), ("active", 30, "AirBeam3-PM2.5"),
     ("active", 30, "AirBeam2-PM2.5"), ("active", 30, "AirBeam-PM2.5"),
     ("active", 90, "AirBeam3-PM2.5"), ("active", 90, "AirBeam2-PM2.5"),
     ("active", 90, "AirBeam-PM2.5"), ("dormant", 7, "AirBeam3-PM2.5"),
     ("dormant", 7, "AirBeam2-PM2.5"), ("dormant", 7, "AirBeam-PM2.5"),
     ("dormant", 30, "AirBeam3-PM2.5"), ("dormant", 30, "AirBeam2-PM2.5"),
     ("dormant", 30, "AirBeam-PM2.5"), ("dormant", 90, "AirBeam3-PM2.5")]
    "dormant" 90 "AirBeam2-PM2.5"
    [("dormant", 90, "AirBeam-PM2.5")]
    (.obj (some (some 7)) none) [] (by decide) (by decide) (by decide)

/-! ## Claim C9 -/

/-- Claim C9: if a single cascade request fails at the transport level, the
error propagates and the whole discovery run aborts with that error: the
request trace stops at the failing combination (no later combination is
attempted) and no session is returned. -/
theorem C9_transport_error_aborts :
    ∀ {ε : Type} (oracle : String → Nat → String → Except ε (List SessElem))
      (pre : List Combo) (c : Combo) (post : List Combo) (e : ε),
      cascadeCombos = pre ++ c :: post →
      (∀ c' ∈ pre, oracle c'.1 c'.2.1 c'.2.2 = .ok []) →
      oracle c.1 c.2.1 c.2.2 = .error e →
      pick_fixed_session_mapstyle oracle = (.error e, pre ++ [c]) := by
  intro ε oracle pre c post e hsplit hpre hc
  rw [pick_fixed_session_mapstyle, hsplit]
  exact cascade_run_error oracle pre c post hpre e hc

theorem C9_transport_error_aborts_witness :
    pick_fixed_session_mapstyle oracleC9 =
      (.error "HTTP 500",
        [("active", 7, "AirBeam3-PM2.5"), ("active", 7, "AirBeam2-PM2.5")]) :=
  C9_transport_error_aborts oracleC9
    [("active", 7, "AirBeam3-PM2.5")] ("active", 7, "AirBeam2-PM2.5")
    [("active", 7, "AirBeam-PM2.5"), ("active", 30, "AirBeam3-PM2.5"),
     ("active", 30, "AirBeam2-PM2.5"), ("active", 30, "AirBeam-PM2.5"),
     ("active", 90, "AirBeam3-PM2.5"), ("active", 90, "AirBeam2-PM2.5"),
     ("active", 90, "AirBeam-PM2.5"), ("dormant", 7, "AirBeam3-PM2.5"),
     ("dormant", 7, "AirBeam2-PM2.5"), ("dormant", 7, "AirBeam-PM2.5"),
     ("dormant", 30, "AirBeam3-PM2.5"), ("dormant", 30, "AirBeam2-PM2.5"),
     ("dormant", 30, "AirBeam-PM2.5"), ("dormant", 90, "AirBeam3-PM2.5"),
     ("dormant", 90, "AirBeam2-PM2.5"), ("dormant", 90, "AirBeam-PM2.5")]
    "HTTP 500" (by decide) (by decide) (by decide)

/-! ## Claim C10 -/

/-- Claim C10: on a cascade hit, the id placed in the result is computed from
the first element of the returned session list by the rule of lines 143-147:
a dict containing `"id"` contributes that value; otherwise a dict contributes
its `"session_id"` value (null if that key is absent too); a bare element
contributes itself. -/
theorem C10_session_id_rule :
    (∀ (v : Option Int) (sidf : Option (Option Int)), extract_sid (.obj (some v) sidf) = v) ∧
    (∀ v : Option Int, extract_sid (.obj none (some v)) = v) ∧
    extract_sid (.obj none none) = none ∧
    (∀ v : Option Int, extract_sid (.bare v) = v) ∧
    ∀ (o : String → Nat → String → List SessElem)
      (pre : List Combo) (c : Combo) (post : List Combo) (s0 : SessElem) (ss : List SessElem),
      cascadeCombos = pre ++ c :: post →
      (∀ c' ∈ pre, o c'.1 c'.2.1 c'.2.2 = []) →
      o c.1 c.2.1 c.2.2 = s0 :: ss →
      (pick_fixed_session_mapstyle (okOracle o)).1 =
        .ok (some (mk_session_ref c.1 c.2.1 c.2.2 s0)) ∧
      (mk_session_ref c.1 c.2.1 c.2.2 s0).id = extract_sid s0 := by
  refine ⟨fun v sidf => rfl, fun v => rfl, rfl, fun v => rfl, ?_⟩
  intro o pre c post s0 ss hsplit hpre hc
  have h := cascade_run_first_hit (okOracle o) pre c post
    (fun c' hc' => by simp [okOracle, hpre c' hc']) s0 ss (by simp [okOracle, hc])
  exact ⟨by rw [pick_fixed_session_mapstyle, hsplit, h], rfl⟩

theorem C10_session_id_rule_witness :
    (pick_fixed_session_mapstyle (okOracle oracleC10)).1 =
      .ok (some (mk_session_ref "active" 7 "AirBeam3-PM2.5" (.obj none (some (some 3))))) ∧
    (mk_session_ref "active" 7 "AirBeam3-PM2.5" (.obj none (some (some 3)))).id = some 3 :=
  C10_session_id_rule.2.2.2.2 oracleC10
    [] ("active", 7, "AirBeam3-PM2.5")
    [("active", 7, "AirBeam2-PM2.5"),
     ("active", 7, "AirBeam-PM2.5"), ("active", 30, "AirBeam3-PM2.5"),
     ("active", 30, "AirBeam2-PM2.5"), ("active", 30, "AirBeam-PM2.5"),
     ("active", 90, "AirBeam3-PM2.5"), ("active", 90, "AirBeam2-PM2.5"),
     ("active", 90, "AirBeam-PM2.5"), ("dormant", 7, "AirBeam3-PM2.5"),
     ("dormant", 7, "AirBeam2-PM2.5"), ("dormant", 7, "AirBeam-PM2.5"),
     ("dormant", 30, "AirBeam3-PM2.5"), ("dormant", 30, "AirBeam2-PM2.5"),
     ("dormant", 30, "AirBeam-PM2.5"), ("dormant", 90, "AirBeam3-PM2.5"),
     ("dormant", 90, "AirBeam2-PM2.5"), ("dormant", 90, "AirBeam-PM2.5")]
    (.obj none (some (some 3))) [] (by decide) (by decide) (by decide)

/-! ## Claim C3 -/

/-- Claim C3, counterexample: at exactly ten billion the source's test
`x > 10_000_000_000` is false, so the value is parsed as seconds (scaled by
1000), not as milliseconds as the claim ("at or above ten billion") states. -/
theorem C3_counterexample :
    to_datetime_any (fun _ => none) (.num 10000000000) = some 10000000000000 ∧
    to_datetime_any (fun _ => none) (.num 10000000000) ≠ some 10000000000 := by
  refine ⟨rfl, by decide⟩

/-- Claim C3 (amended): a numeric raw timestamp at or below ten billion is
parsed as seconds-since-epoch, and one strictly above ten billion as
milliseconds-since-epoch; in particular 1700000000 and 1700000000000 both
normalize to the same UTC instant (epoch-ms 1700000000000). -/
theorem C3_numeric_threshold :
    ∀ (parseIso : String → Option Int) (x : Int),
      (x ≤ 10000000000 → to_datetime_any parseIso (.num x) = some (x * 1000)) ∧
      (10000000000 < x → to_datetime_any parseIso (.num x) = some x) ∧
      to_datetime_any parseIso (.num 1700000000) = some 1700000000000 ∧
      to_datetime_any parseIso (.num 1700000000000) = some 1700000000000 := by
  intro parseIso x
  refine ⟨fun hx => ?_, fun hx => ?_, rfl, rfl⟩
  · simp only [to_datetime_any]
    rw [if_neg (not_lt.mpr hx)]
  · simp only [to_datetime_any]
    rw [if_pos hx]

theorem C3_numeric_threshold_witness :
    ((1700000000 : Int) ≤ 10000000000 ∧
      to_datetime_any (fun _ => none) (.num 1700000000) = some (1700000000 * 1000)) ∧
    ((10000000000 : Int) < 1700000000000 ∧
      to_datetime_any (fun _ => none) (.num 1700000000000) = some 1700000000000) :=
  ⟨⟨by decide, (C3_numeric_threshold (fun _ => none) 1700000000).1 (by decide)⟩,
   ⟨by decide, (C3_numeric_threshold (fun _ => none) 1700000000000).2.1 (by decide)⟩⟩

/-! ## Claim C6 -/

/-- Claim C6: tier-1 discovery returns the first `"FixedSession"`-typed
session of the primary response if any; otherwise the first listed session
when the list is non-empty, without issuing the widened request; only when
the list is empty does it issue the one-year-widened request (recorded by the
`Bool`), preferring a FixedSession from that second list, then its first
element, and yielding none only when the widened list is empty too. -/
theorem C6_v3_two_step :
    ∀ first widened : List Sess,
      ((first.find? isFixedSession).isSome →
        pick_fixed_session_v3 first widened = (first.find? isFixedSession, false)) ∧
      (first.find? isFixedSession = none → first ≠ [] →
        pick_fixed_session_v3 first widened = (first.head?, false)) ∧
      (first = [] →
        pick_fixed_session_v3 first widened =
          ((widened.find? isFixedSession) <|> widened.head?, true)) ∧
      (first = [] → widened = [] →
        pick_fixed_session_v3 first widened = (none, true)) := by
  intro first widened
  refine ⟨fun hsome => ?_, fun hnone hne => ?_, fun hemp => ?_, fun hemp hwemp => ?_⟩
  · obtain ⟨f, hf⟩ := Option.isSome_iff_exists.mp hsome
    simp [pick_fixed_session_v3, hf]
  · cases first with
    | nil => exact absurd rfl hne
    | cons s rest => simp [pick_fixed_session_v3, hnone]
  · subst hemp
    simp [pick_fixed_session_v3]
  · subst hemp; subst hwemp
    simp [pick_fixed_session_v3]

theorem C6_v3_two_step_witness :
    pick_fixed_session_v3 []
        [{ type_ := some "MobileSession", payload := 1 },
         { type_ := some "FixedSession", payload := 2 }] =
      (some { type_ := some "FixedSession", payload := 2 }, true) := by
  have h := (C6_v3_two_step []
    [{ type_ := some "MobileSession", payload := 1 },
     { type_ := some "FixedSession", payload := 2 }]).2.2.1 rfl
  exact h.trans (by decide)

/-! ## Claim C7 -/

/-- Claim C7: for every latitude strictly between -90 and 90 degrees, every
longitude, and every positive radius, the computed bounding box satisfies
west < east and south < north. -/
theorem C7_bbox_proper :
    ∀ lat lon radius_km : ℝ, -90 < lat → lat < 90 → 0 < radius_km →
      (calculate_bounding_box lat lon radius_km).1 <
        (calculate_bounding_box lat lon radius_km).2.1 ∧
      (calculate_bounding_box lat lon radius_km).2.2.1 <
        (calculate_bounding_box lat lon radius_km).2.2.2 := by
  intro lat lon r h1 h2 h3
  have hπ : (0 : ℝ) < Real.pi := Real.pi_pos
  have hscale : (0 : ℝ) < Real.pi / 180 := by positivity
  have hlow : -(Real.pi / 2) < lat * (Real.pi / 180) := by
    have := mul_lt_mul_of_pos_right h1 hscale
    nlinarith
  have hhigh : lat * (Real.pi / 180) < Real.pi / 2 := by
    have := mul_lt_mul_of_pos_right h2 hscale
    nlinarith
  have hcos : 0 < Real.cos (lat * (Real.pi / 180)) :=
    Real.cos_pos_of_mem_Ioo ⟨hlow, hhigh⟩
  have hc : (0 : ℝ) < 180 / Real.pi := by positivity
  have hdlat : (0 : ℝ) < r / 6371 := by positivity
  have hdlon : (0 : ℝ) < r / (6371 * Real.cos (lat * (Real.pi / 180))) := by positivity
  simp only [calculate_bounding_box]
  constructor
  · exact mul_lt_mul_of_pos_right (by linarith) hc
  · exact mul_lt_mul_of_pos_right (by linarith) hc

theorem C7_bbox_proper_witness :
    (calculate_bounding_box 0 0 1).1 < (calculate_bounding_box 0 0 1).2.1 ∧
    (calculate_bounding_box 0 0 1).2.2.1 < (calculate_bounding_box 0 0 1).2.2.2 :=
  C7_bbox_proper 0 0 1 (by norm_num) (by norm_num) (by norm_num)

/-! ## Helper lemmas about stream probing -/

theorem probe_stream_all_empty {μ : Type} (fetch : Option Int → Nat → List μ)
    (sid : Option Int) :
    ∀ hs : List Nat, (∀ h ∈ hs, fetch sid h = []) →
    probe_stream fetch sid hs = (none, hs) := by
  intro hs
  induction hs with
  | nil => intro _; rfl
  | cons h hs' ih =>
    intro hall
    have hh : fetch sid h = [] := hall h (by simp)
    have ih' := ih fun x hx => hall x (by simp [hx])
    simp [probe_stream, hh, ih']

theorem probe_stream_first_hit {μ : Type} (fetch : Option Int → Nat → List μ)
    (sid : Option Int) :
    ∀ (lpre : List Nat) (h : Nat) (lpost : List Nat)
      (_ : ∀ h' ∈ lpre, fetch sid h' = [])
      (m : μ) (ms' : List μ) (_ : fetch sid h = m :: ms'),
    probe_stream fetch sid (lpre ++ h :: lpost) = (some (m :: ms'), lpre ++ [h]) := by
  intro lpre
  induction lpre with
  | nil =>
    intro h lpost _ m ms' hc
    simp [probe_stream, hc]
  | cons h' lpre' ih =>
    intro h lpost hpre m ms' hc
    have hh : fetch sid h' = [] := hpre h' (by simp)
    have ih' := ih h lpost (fun x hx => hpre x (by simp [hx])) m ms' hc
    simp [probe_stream, hh, ih']

theorem find_stream_all_empty {μ : Type} (fetch : Option Int → Nat → List μ) :
    ∀ (ss : List StreamD) (hs : List Nat),
      (∀ s ∈ ss, ∀ h ∈ hs, fetch s.stream_id h = []) →
      find_stream_with_data fetch ss hs =
        ((none, none, []), ss.flatMap fun s => hs.map fun h => (s.stream_id, h)) := by
  intro ss
  induction ss with
  | nil => intro hs _; rfl
  | cons s ss' ih =>
    intro hs hall
    have hp := probe_stream_all_empty fetch s.stream_id hs (hall s (by simp))
    have ih' := ih hs fun x hx => hall x (by simp [hx])
    simp [find_stream_with_data, hp, ih']

theorem find_stream_first_hit {μ : Type} (fetch : Option Int → Nat → List μ) :
    ∀ (pre : List StreamD) (s : StreamD) (post : List StreamD)
      (lpre : List Nat) (h : Nat) (lpost : List Nat)
      (hs : List Nat)
      (_ : hs = lpre ++ h :: lpost)
      (_ : ∀ s' ∈ pre, ∀ h' ∈ hs, fetch s'.stream_id h' = [])
      (_ : ∀ h' ∈ lpre, fetch s.stream_id h' = [])
      (m : μ) (ms' : List μ) (_ : fetch s.stream_id h = m :: ms'),
    find_stream_with_data fetch (pre ++ s :: post) hs =
      ((s.stream_id, some s, m :: ms'),
        (pre.flatMap fun s' => hs.map fun h' => (s'.stream_id, h')) ++
          (lpre.map fun h' => (s.stream_id, h')) ++ [(s.stream_id, h)]) := by
  intro pre
  induction pre with
  | nil =>
    intro s post lpre h lpost hs hhs _ hlpre m ms' hc
    subst hhs
    have hp := probe_stream_first_hit fetch s.stream_id lpre h lpost hlpre m ms' hc
    simp [find_stream_with_data, hp]
  | cons s' pre' ih =>
    intro s post lpre h lpost hs hhs hpre hlpre m ms' hc
    have hp := probe_stream_all_empty fetch s'.stream_id hs (hpre s' (by simp))
    have ih' := ih s post lpre h lpost hs hhs (fun x hx => hpre x (by simp [hx])) hlpre m ms' hc
    simp [find_stream_with_data, hp, ih']

/-! ## Claim C4 -/

/-- Claim C4: the stream resolver probes each stream of the sorted list in
order at the escalating windows 24h, 168h, 720h, 2160h, 4320h, 8760h,
returning the first (stream, window) pair with a non-empty measurement list;
the request trace shows that all six windows of every earlier stream were
probed before moving on, that no larger window of the successful stream is
probed after its hit and no further stream is tried, and that
`(none, none, [])` is returned only when every stream is empty at every
window (after the full 6-per-stream trace). -/
theorem C4_escalating_probe :
    LOOKBACKS_H = [24, 168, 720, 2160, 4320, 8760] ∧
    ∀ {μ : Type} (fetch : Option Int → Nat → List μ) (streams : List StreamD),
      ((∀ s ∈ streams_sorted streams, ∀ h ∈ LOOKBACKS_H, fetch s.stream_id h = []) →
        resolve_stream fetch streams =
          ((none, none, []),
            (streams_sorted streams).flatMap fun s =>
              LOOKBACKS_H.map fun h => (s.stream_id, h))) ∧
      ∀ (pre : List StreamD) (s : StreamD) (post : List StreamD)
        (lpre : List Nat) (h : Nat) (lpost : List Nat) (m : μ) (ms' : List μ),
        streams_sorted streams = pre ++ s :: post →
        (∀ s' ∈ pre, ∀ h' ∈ LOOKBACKS_H, fetch s'.stream_id h' = []) →
        LOOKBACKS_H = lpre ++ h :: lpost →
        (∀ h' ∈ lpre, fetch s.stream_id h' = []) →
        fetch s.stream_id h = m :: ms' →
        resolve_stream fetch streams =
          ((s.stream_id, some s, m :: ms'),
            (pre.flatMap fun s' => LOOKBACKS_H.map fun h' => (s'.stream_id, h')) ++
              (lpre.map fun h' => (s.stream_id, h')) ++ [(s.stream_id, h)]) := by
  refine ⟨by decide, fun {μ} fetch streams => ⟨fun hall => ?_, ?_⟩⟩
  · exact find_stream_all_empty fetch (streams_sorted streams) LOOKBACKS_H hall
  · intro pre s post lpre h lpost m ms' hsplit hpre hlook hlpre hc
    have := find_stream_first_hit fetch pre s post lpre h lpost LOOKBACKS_H hlook hpre hlpre
      m ms' hc
    rw [resolve_stream, hsplit, this]

theorem C4_escalating_probe_witness :
    resolve_stream fetchC4 streamsC4 =
      ((some 2, some { stream_id := some 2, sensor_name := some "AirBeam3-PM2.5", meta := 0 },
          [99]),
        [(some 1, 24), (some 1, 168), (some 1, 720), (some 1, 2160), (some 1, 4320),
         (some 1, 8760), (some 2, 24), (some 2, 168), (some 2, 720), (some 2, 2160),
         (some 2, 4320)]) := by
  have h := (C4_escalating_probe.2 fetchC4 streamsC4).2
    [{ stream_id := some 1, sensor_name := some "AirBeam2-PM2.5", meta := 0 }]
    { stream_id := some 2, sensor_name := some "AirBeam3-PM2.5", meta := 0 }
    []
    [24, 168, 720, 2160] 4320 [8760] 99 []
    (by decide) (by decide) (by decide) (by decide) (by decide)
  exact h.trans (by decide)

/-! ## Helper lemmas about normalization -/

theorem coerce_filter (parseIso : String → Option Int) (ms : List RawMeas) :
    (coerce_df parseIso ms).filter (fun r => r.time.isSome) =
      (ms.filter fun m => (to_datetime_any parseIso (resolve_time m)).isSome).map
        (rowOf parseIso) := by
  unfold coerce_df
  rw [List.filter_map]
  rfl

theorem sortOk_plain_sort : SortOk plain_sort := fun l =>
  ⟨List.perm_insertionSort rowLE l, List.sorted_insertionSort rowLE l⟩

theorem perm_eq_of_map_eq {α β : Type} (f : α → β) :
    ∀ l₁ l₂ : List α, List.Perm l₁ l₂ → l₁.map f = l₂.map f → (l₁.map f).Nodup → l₁ = l₂ := by
  intro l₁
  induction l₁ with
  | nil => intro l₂ hp _ _; exact hp.nil_eq
  | cons a t₁ ih =>
    intro l₂ hp hm hn
    cases l₂ with
    | nil => simp at hm
    | cons b t₂ =>
      simp only [List.map_cons, List.cons.injEq] at hm
      obtain ⟨hfab, hmt⟩ := hm
      by_cases hab : a = b
      · subst hab
        rw [ih t₂ hp.cons_inv hmt
          (by simp only [List.map_cons, List.nodup_cons] at hn; exact hn.2)]
      · exfalso
        have hbmem : b ∈ a :: t₁ := hp.symm.subset (by simp)
        rcases List.mem_cons.mp hbmem with hba | hbt
        · exact hab hba.symm
        · have hfb : f b ∈ t₁.map f := List.mem_map_of_mem f hbt
          rw [← hfab] at hfb
          simp only [List.map_cons, List.nodup_cons] at hn
          exact hn.1 hfb

theorem sorted_perm_of_strict (l l' : List Row)
    (hperm : List.Perm l' l)
    (hstrict : List.Pairwise (fun a b => timeKey a < timeKey b) l)
    (hsorted : List.Sorted rowLE l') : l' = l := by
  have hmapperm : List.Perm (l'.map timeKey) (l.map timeKey) := hperm.map timeKey
  have hs1 : List.Sorted (· ≤ ·) (l'.map timeKey) := List.pairwise_map.mpr hsorted
  have hs2 : List.Sorted (· ≤ ·) (l.map timeKey) :=
    List.pairwise_map.mpr (hstrict.imp le_of_lt)
  have hmeq : l'.map timeKey = l.map timeKey := List.eq_of_perm_of_sorted hmapperm hs1 hs2
  have hnd : (l.map timeKey).Nodup := (List.pairwise_map.mpr hstrict).imp ne_of_lt
  exact perm_eq_of_map_eq timeKey l' l hperm hmeq (by rw [hmeq]; exact hnd)

/-! ## Claim C5 -/

/-- Claim C5 (amended): for every input list and every sorter satisfying the
`sort_values` contract, the normalized output consists of exactly the rows of
the records whose resolved timestamp parsed to non-null (as a permutation),
sorted ascending by parsed time, every output row having a non-null time.
The relative order of records with equal times is NOT guaranteed: line 309
uses `sort_values` with its default `kind='quicksort'`, which pandas
documents as unstable. -/
theorem C5_normalize_content :
    ∀ (parseIso : String → Option Int) (sorter : List Row → List Row),
      SortOk sorter →
      ∀ ms : List RawMeas,
        List.Perm (normalize_pipeline parseIso sorter ms)
          ((ms.filter fun m => (to_datetime_any parseIso (resolve_time m)).isSome).map
            (rowOf parseIso)) ∧
        List.Sorted rowLE (normalize_pipeline parseIso sorter ms) ∧
        ∀ r ∈ normalize_pipeline parseIso sorter ms, r.time.isSome = true := by
  intro parseIso sorter hsort ms
  have hfl := coerce_filter parseIso ms
  refine ⟨?_, (hsort _).2, ?_⟩
  · rw [normalize_pipeline]
    refine ((hsort _).1).trans ?_
    rw [hfl]
  · intro r hr
    have hmem : r ∈ (coerce_df parseIso ms).filter (fun r => r.time.isSome) :=
      ((hsort _).1).subset hr
    exact (List.mem_filter.mp hmem).2

theorem sortOk_tie_swap : SortOk tie_swap := by
  intro l
  rcases l with _ | ⟨a, _ | ⟨b, _ | ⟨c, rest⟩⟩⟩
  · exact sortOk_plain_sort []
  · exact sortOk_plain_sort [a]
  · constructor
    · simp only [tie_swap]
      split_ifs with h
      · exact List.Perm.swap a b []
      · exact List.Perm.refl _
    · simp only [tie_swap]
      split_ifs with h
      · simp only [List.sorted_cons, List.mem_singleton, forall_eq, List.sorted_singleton,
          and_true, List.not_mem_nil, false_implies, implies_true]
        exact ⟨h, by simp⟩
      · simp only [List.sorted_cons, List.mem_singleton, forall_eq, List.sorted_singleton,
          and_true, List.not_mem_nil, false_implies, implies_true]
        exact ⟨le_of_not_le h, by simp⟩
  · exact sortOk_plain_sort (a :: b :: c :: rest)

/-- Claim C5, counterexample to stability: two records with equal parsed
times (and distinct payloads) can come out of the pipeline in reversed
relative order under a sorter that satisfies everything `sort_values` with
the default (unstable) `quicksort` kind guarantees. -/
theorem C5_counterexample :
    SortOk tie_swap ∧
    (rowOf (fun _ => none) measA).time = (rowOf (fun _ => none) measB).time ∧
    ((coerce_df (fun _ => none) [measA, measB]).filter fun r => r.time.isSome).map
        (fun r => r.orig.rest) = [1, 2] ∧
    (normalize_pipeline (fun _ => none) tie_swap [measA, measB]).map
        (fun r => r.orig.rest) = [2, 1] :=
  ⟨sortOk_tie_swap, by decide, by decide, by decide⟩

theorem C5_normalize_content_witness :
    List.Perm (normalize_pipeline (fun _ => none) plain_sort [measC, measBad])
      (([measC, measBad].filter fun m =>
          (to_datetime_any (fun _ => none) (resolve_time m)).isSome).map
        (rowOf (fun _ => none))) ∧
    List.Sorted rowLE (normalize_pipeline (fun _ => none) plain_sort [measC, measBad]) ∧
    ∀ r ∈ normalize_pipeline (fun _ => none) plain_sort [measC, measBad],
      r.time.isSome = true :=
  C5_normalize_content (fun _ => none) plain_sort sortOk_plain_sort [measC, measBad]

/-! ## Claim C8 -/

/-- Claim C8: when every record's resolved timestamp parses and the parsed
times are strictly increasing, normalization (under any sorter satisfying
the `sort_values` contract) returns exactly the coerced rows in input order —
nothing is dropped, nothing is reordered — with output length equal to input
length. -/
theorem C8_roundtrip :
    ∀ (parseIso : String → Option Int) (sorter : List Row → List Row),
      SortOk sorter →
      ∀ ms : List RawMeas,
        (∀ m ∈ ms, (to_datetime_any parseIso (resolve_time m)).isSome = true) →
        List.Pairwise (fun a b =>
          (to_datetime_any parseIso (resolve_time a)).getD 0 <
            (to_datetime_any parseIso (resolve_time b)).getD 0) ms →
        normalize_pipeline parseIso sorter ms = coerce_df parseIso ms ∧
        (normalize_pipeline parseIso sorter ms).length = ms.length := by
  intro parseIso sorter hsort ms hall hinc
  have hfilter : (coerce_df parseIso ms).filter (fun r => r.time.isSome) =
      coerce_df parseIso ms := by
    refine List.filter_eq_self.mpr ?_
    intro r hr
    obtain ⟨m, hm, rfl⟩ := List.mem_map.mp hr
    exact hall m hm
  have hstrict : List.Pairwise (fun a b => timeKey a < timeKey b) (coerce_df parseIso ms) :=
    List.pairwise_map.mpr hinc
  have heq : normalize_pipeline parseIso sorter ms = coerce_df parseIso ms := by
    rw [normalize_pipeline, hfilter]
    exact sorted_perm_of_strict (coerce_df parseIso ms) _ ((hsort _).1) hstrict (hsort _).2
  refine ⟨heq, ?_⟩
  rw [heq]
  simp [coerce_df]

theorem C8_roundtrip_witness :
    normalize_pipeline (fun _ => none) plain_sort [measE, measF] =
      coerce_df (fun _ => none) [measE, measF] ∧
    (normalize_pipeline (fun _ => none) plain_sort [measE, measF]).length = 2 :=
  C8_roundtrip (fun _ => none) plain_sort sortOk_plain_sort [measE, measF]
    (by decide) (by decide)
